import Mathlib

/-!
# Candy-machine mint construction (`app/src/CandyMachine/index.js`)

A shallow embedding of the React component's two effectful functions:

* `getCandyMachineState` (lines 134-210): decodes the on-ledger account and stores the
  record `{ id, program, state }`;
* `mintToken` (lines 212-488): builds the mint instruction list, the `remainingAccounts`
  list, the signer list and the cleanup instruction list, and hands them to
  `sendTransactions`.

Modelling conventions.

* Everything the component imports (`./helpers`, `./connection`, `@solana/web3.js`,
  `@solana/spl-token`, anchor) is a field of `Env`: addresses are parameters, the
  derivations of program addresses are total functions, and the calls that can throw
  return `Except Error _`, a thrown exception or rejected promise being `.error`: the
  three network calls (`getMinimumBalanceForRentExemption`, `getAccountInfo`,
  `sendTransactions`) and the decoding `new PublicKey(string)`.
* `web3.Keypair.generate()` is random; the `k`-th call of one `mintToken` run returns
  `env.generate k`, and the running state counts the calls made so far.
* A JavaScript object field that may be absent (`undefined`/`null`) is an `Option`; a
  truthiness test of such a field is a `match` on it.
* Instruction constructors of the libraries are constructors of `Instruction`, carrying
  their arguments in the order of the call.
* The wallet is connected (`walletAddress.publicKey` is `env.walletPublicKey`).
-/

namespace CandyMachineApp

/-! ## Data model -/

/-- A ledger address (`web3.PublicKey`). -/
structure PublicKey where
  key : Nat
deriving DecidableEq, Repr

/-- A key-pair (`web3.Keypair`). -/
structure Keypair where
  publicKey : PublicKey
  secretKey : Nat
deriving DecidableEq, Repr

/-- An account reference `{ pubkey, isSigner, isWritable }`. -/
structure AccountMeta where
  pubkey : PublicKey
  isSigner : Bool
  isWritable : Bool
deriving DecidableEq, Repr

/-- A seed handed to `findProgramAddress`: `Buffer.from(text)` or `key.toBuffer()`. -/
inductive Seed where
  | text (s : String)
  | key (k : PublicKey)
deriving DecidableEq, Repr

/-- A thrown JavaScript value. -/
inductive Error where
  | typeError
  | assertion
  | invalidPublicKey
  | rpc (code : Nat)
deriving DecidableEq, Repr

/-- A `BN` big number of the anchor decoder. -/
abbrev BN := Int

/-- `BN.prototype.toNumber`: the number itself when it fits in 53 bits, an assertion
failure ("Number can only safely store up to 53 bits") otherwise. -/
def BN.toNumber (n : BN) : Except Error Int :=
  if n.natAbs < 2 ^ 53 then .ok n else .error .assertion

/-- The `gatekeeper` setting of a candy machine. -/
structure Gatekeeper where
  gatekeeperNetwork : PublicKey
  expireOnUse : Bool
deriving DecidableEq, Repr

/-- The anchor enum `WhitelistMintMode`; `mode.burnEveryTime` is truthy exactly for the
first variant. -/
inductive WhitelistMintMode where
  | burnEveryTime
  | neverBurn
deriving DecidableEq, Repr

/-- The `whitelistMintSettings` setting of a candy machine. -/
structure WhitelistMintSettings where
  mode : WhitelistMintMode
  mint : PublicKey
  presale : Bool
  discountPrice : Option BN
deriving DecidableEq, Repr

/-- The anchor enum `EndSettingType`; `endSettingType.date` is truthy exactly for the
first variant. -/
inductive EndSettingType where
  | date
  | amount
deriving DecidableEq, Repr

/-- The `endSettings` setting of a candy machine. -/
structure EndSettings where
  endSettingType : EndSettingType
  number : BN
deriving DecidableEq, Repr

/-- The `hiddenSettings` setting of a candy machine. -/
structure HiddenSettings where
  name : String
  uri : String
  hash : List Nat
deriving DecidableEq, Repr

/-- An RPC connection. -/
structure Connection where
  rpcHost : String
deriving DecidableEq, Repr

/-- The wallet adapter held by the provider (`window.solana`). -/
structure Wallet where
  publicKey : PublicKey
deriving DecidableEq, Repr

/-- The anchor `Provider`. -/
structure Provider where
  connection : Connection
  wallet : Wallet
deriving DecidableEq, Repr

/-- The anchor `Program` instance. -/
structure Program where
  programId : PublicKey
  provider : Provider
deriving DecidableEq, Repr

/-- The `accounts` object of the `mintNft` call (lines 447-464). The `candyMachine`
entry is the record's `id`, a string. -/
structure MintNftAccounts where
  candyMachine : String
  candyMachineCreator : PublicKey
  payer : PublicKey
  wallet : PublicKey
  mint : PublicKey
  metadata : PublicKey
  masterEdition : PublicKey
  mintAuthority : PublicKey
  updateAuthority : PublicKey
  tokenMetadataProgram : PublicKey
  tokenProgram : PublicKey
  systemProgram : PublicKey
  rent : PublicKey
  clock : PublicKey
  recentBlockhashes : PublicKey
  instructionSysvarAccount : PublicKey
deriving DecidableEq, Repr

/-- A ledger instruction, one constructor per instruction builder that `mintToken` calls:
`SystemProgram.createAccount`, `Token.createInitMintInstruction`,
`new web3.TransactionInstruction`, `Token.createMintToInstruction`,
`Token.createApproveInstruction`, `Token.createRevokeInstruction` and
`program.instruction.mintNft`. -/
inductive Instruction where
  | createAccount (fromPubkey newAccountPubkey : PublicKey) (space lamports : Nat)
      (programId : PublicKey)
  | initMint (programId mint : PublicKey) (decimals : Nat)
      (mintAuthority freezeAuthority : PublicKey)
  | transactionInstruction (keys : List AccountMeta) (programId : PublicKey)
      (data : List Nat)
  | mintTo (programId mint dest authority : PublicKey) (multiSigners : List Keypair)
      (amount : Int)
  | approve (programId account delegate owner : PublicKey) (multiSigners : List Keypair)
      (amount : Int)
  | revoke (programId account owner : PublicKey) (multiSigners : List Keypair)
  | mintNft (program : PublicKey) (creatorBump : Nat) (accounts : MintNftAccounts)
      (remainingAccounts : Option (List AccountMeta))
deriving DecidableEq, Repr

/-- The `state` object nested in the stored record (lines 169-195). -/
structure CandyMachineState where
  itemsAvailable : Int
  itemsRedeemed : Int
  itemsRemaining : Int
  goLiveData : Int
  goLiveDateTimeString : String
  isSoldOut : Bool
  isActive : Bool
  isPresale : Option Bool
  goLiveDate : Option BN
  treasury : PublicKey
  tokenMint : Option PublicKey
  gatekeeper : Option Gatekeeper
  endSettings : Option EndSettings
  whitelistMintSettings : Option WhitelistMintSettings
  hiddenSettings : Option HiddenSettings
  price : BN
deriving DecidableEq, Repr

/-- The `candyMachine` object as `mintToken` reads it: besides `id`, `program` and
`state` it tests the top-level fields `gatekeeper`, `whitelistMintSettings` and
`tokenMint` and reads the top-level field `price`; each of the four may be absent. -/
structure CandyMachine where
  id : String
  program : Program
  state : CandyMachineState
  gatekeeper : Option Gatekeeper
  whitelistMintSettings : Option WhitelistMintSettings
  tokenMint : Option PublicKey
  price : Option BN
deriving DecidableEq, Repr

/-- The `data` part of the decoded on-ledger candy-machine account. -/
structure CandyMachineData where
  itemsAvailable : BN
  goLiveDate : Option BN
  price : BN
  gatekeeper : Option Gatekeeper
  endSettings : Option EndSettings
  whitelistMintSettings : Option WhitelistMintSettings
  hiddenSettings : Option HiddenSettings
deriving DecidableEq, Repr

/-- The decoded on-ledger candy-machine account returned by
`program.account.candyMachine.fetch`. `endSettings` is the top-level field that line 180
tests (the decoder nests the setting under `data`, so it may well be absent). -/
structure CandyMachineAccount where
  wallet : PublicKey
  tokenMint : Option PublicKey
  itemsRedeemed : BN
  data : CandyMachineData
  endSettings : Option EndSettings
deriving DecidableEq, Repr

/-- One entry of the submitter's answer. -/
structure SentTx where
  txid : String
deriving DecidableEq, Repr

/-- The answer of `sendTransactions`. -/
structure SendResult where
  txs : List SentTx
deriving DecidableEq, Repr

/-- The account data returned by `getAccountInfo` for an existing account. -/
structure AccountInfo where
  lamports : Nat
  owner : PublicKey
deriving DecidableEq, Repr

/-- Everything `mintToken` imports or reads from its surroundings. -/
structure Env where
  /-- The connected wallet, `walletAddress.publicKey`. -/
  walletPublicKey : PublicKey
  /-- The `k`-th result of `web3.Keypair.generate()` in one run. -/
  generate : Nat → Keypair
  /-- The constructor `new PublicKey(string)`: the decoded address, or the exception
  "Invalid public key input" for a string that is not the base58 form of 32 bytes. -/
  newPublicKey : String → Except Error PublicKey
  findProgramAddress : List Seed → PublicKey → PublicKey × Nat
  getAtaForMint : PublicKey → PublicKey → PublicKey × Nat
  getNetworkToken : PublicKey → PublicKey → PublicKey × Nat
  getNetworkExpire : PublicKey → PublicKey × Nat
  CIVIC : PublicKey
  candyMachineProgram : PublicKey
  TOKEN_METADATA_PROGRAM_ID : PublicKey
  SPL_ASSOCIATED_TOKEN_ACCOUNT_PROGRAM_ID : PublicKey
  TOKEN_PROGRAM_ID : PublicKey
  systemProgramId : PublicKey
  SYSVAR_RENT_PUBKEY : PublicKey
  SYSVAR_CLOCK_PUBKEY : PublicKey
  SYSVAR_RECENT_BLOCKHASHES_PUBKEY : PublicKey
  SYSVAR_INSTRUCTIONS_PUBKEY : PublicKey
  /-- The constant `MintLayout.span`. -/
  mintLayoutSpan : Nat
  getMinimumBalanceForRentExemption : Connection → Nat → Except Error Nat
  getAccountInfo : Connection → PublicKey → Except Error (Option AccountInfo)
  sendTransactions : Connection → Wallet → List (List Instruction) →
    List (List Keypair) → Except Error SendResult

/-! ## Address helpers (lines 69-132) -/

/-- Lines 69-75, `getCandyMachineCreator`; it throws when `new PublicKey(candyMachine)`
does. -/
def getCandyMachineCreator (env : Env) (candyMachine : String) :
    Except Error (PublicKey × Nat) :=
  match env.newPublicKey candyMachine with
  | .error e => .error e
  | .ok candyMachineID =>
    .ok (env.findProgramAddress [Seed.text "candy_machine", Seed.key candyMachineID]
      env.candyMachineProgram)

/-- Lines 77-88, `getMetadata`. -/
def getMetadata (env : Env) (mint : PublicKey) : PublicKey :=
  (env.findProgramAddress
    [Seed.text "metadata", Seed.key env.TOKEN_METADATA_PROGRAM_ID, Seed.key mint]
    env.TOKEN_METADATA_PROGRAM_ID).1

/-- Lines 90-102, `getMasterEdition`. -/
def getMasterEdition (env : Env) (mint : PublicKey) : PublicKey :=
  (env.findProgramAddress
    [Seed.text "metadata", Seed.key env.TOKEN_METADATA_PROGRAM_ID, Seed.key mint,
      Seed.text "edition"]
    env.TOKEN_METADATA_PROGRAM_ID).1

/-- Lines 104-132, `createAssociatedTokenAccountInstruction`. -/
def createAssociatedTokenAccountInstruction (env : Env)
    (associatedTokenAddress payer walletAddress splTokenMintAddress : PublicKey) :
    Instruction :=
  let keys : List AccountMeta :=
    [ { pubkey := payer, isSigner := true, isWritable := true },
      { pubkey := associatedTokenAddress, isSigner := false, isWritable := true },
      { pubkey := walletAddress, isSigner := false, isWritable := false },
      { pubkey := splTokenMintAddress, isSigner := false, isWritable := false },
      { pubkey := env.systemProgramId, isSigner := false, isWritable := false },
      { pubkey := env.TOKEN_PROGRAM_ID, isSigner := false, isWritable := false },
      { pubkey := env.SYSVAR_RENT_PUBKEY, isSigner := false, isWritable := false } ]
  Instruction.transactionInstruction keys env.SPL_ASSOCIATED_TOKEN_ACCOUNT_PROGRAM_ID []

/-! ## `getCandyMachineState` (lines 134-210) -/

/-- What `getCandyMachineState` reads from its surroundings. `nowMs k` is the value of
`new Date().getTime()` at the `k`-th place of the text that reads the clock (lines 159,
179 and 183); the quotient `getTime() / 1000` is compared as a real number, so
`x > getTime() / 1000` is `x * 1000 > getTime()`. -/
structure StateEnv where
  /-- The variable `process.env.REACT_APP_CANDY_MACHINE_ID`. -/
  candyMachineId : String
  /-- The result of `Program.fetchIdl`: no IDL is `none`. -/
  fetchIdl : Except Error (Option Unit)
  /-- The instance `new Program(idl, candyMachineProgram, provider)`. -/
  program : Program
  /-- The result of `program.account.candyMachine.fetch`. -/
  fetch : String → Except Error CandyMachineAccount
  nowMs : Nat → Int
  /-- The string `new Date(ms).toUTCString()`. -/
  toUTCString : Int → String

/-- Lines 155-159, the constant `presale`; `none` is `undefined`. -/
def presaleOf (senv : StateEnv) (data : CandyMachineData) (goLive : Int) : Option Bool :=
  match data.whitelistMintSettings with
  | none => none
  | some wms =>
    if wms.presale then
      some (data.goLiveDate.isNone || decide (goLive * 1000 > senv.nowMs 0))
    else some false

/-- Lines 180-185, the second operand of `isActive`. -/
def endSettingsOpen (senv : StateEnv) (candyMachine : CandyMachineAccount)
    (itemsRedeemed : Int) : Except Error Bool :=
  match candyMachine.endSettings with
  | none => .ok true
  | some es =>
    match BN.toNumber es.number with
    | .error e => .error e
    | .ok number =>
      match es.endSettingType with
      | .date => .ok (decide (number * 1000 > senv.nowMs 2))
      | .amount => .ok (decide (itemsRedeemed < number))

/-- Lines 176-185, the field `isActive`. -/
def isActiveOf (senv : StateEnv) (candyMachine : CandyMachineAccount)
    (presale : Option Bool) (goLive itemsRedeemed : Int) : Except Error Bool :=
  if presale = some true || decide (goLive * 1000 < senv.nowMs 1) then
    endSettingsOpen senv candyMachine itemsRedeemed
  else .ok false

/-- Lines 134-210, `getCandyMachineState`: the value passed to `setCandyMachine`, or
`none` when the function ends without storing a record (no IDL, or an exception caught
at line 207). The stored object literal (lines 166-196) has exactly the fields `id`,
`program` and `state`; its top-level `gatekeeper`, `whitelistMintSettings`, `tokenMint`
and `price` are therefore absent. -/
def getCandyMachineState (senv : StateEnv) : Option CandyMachine :=
  match senv.fetchIdl with
  | .error _ => none
  | .ok none => none
  | .ok (some _) =>
    match senv.fetch senv.candyMachineId with
    | .error _ => none
    | .ok candyMachine =>
      match BN.toNumber candyMachine.data.itemsAvailable with
      | .error _ => none
      | .ok itemsAvailable =>
        match BN.toNumber candyMachine.itemsRedeemed with
        | .error _ => none
        | .ok itemsRedeemed =>
          let itemsRemaining := itemsAvailable - itemsRedeemed
          match candyMachine.data.goLiveDate with
          | none => none
          | some goLiveDate =>
            match BN.toNumber goLiveDate with
            | .error _ => none
            | .ok goLiveData =>
              let presale := presaleOf senv candyMachine.data goLiveData
              let goLiveDateTimeString := senv.toUTCString (goLiveData * 1000)
              match isActiveOf senv candyMachine presale goLiveData itemsRedeemed with
              | .error _ => none
              | .ok isActive =>
                some
                  { id := senv.candyMachineId
                    program := senv.program
                    state :=
                      { itemsAvailable := itemsAvailable
                        itemsRedeemed := itemsRedeemed
                        itemsRemaining := itemsRemaining
                        goLiveData := goLiveData
                        goLiveDateTimeString := goLiveDateTimeString
                        isSoldOut := decide (itemsRemaining = 0)
                        isActive := isActive
                        isPresale := presale
                        goLiveDate := candyMachine.data.goLiveDate
                        treasury := candyMachine.wallet
                        tokenMint := candyMachine.tokenMint
                        gatekeeper := candyMachine.data.gatekeeper
                        endSettings := candyMachine.data.endSettings
                        whitelistMintSettings := candyMachine.data.whitelistMintSettings
                        hiddenSettings := candyMachine.data.hiddenSettings
                        price := candyMachine.data.price }
                    gatekeeper := none
                    whitelistMintSettings := none
                    tokenMint := none
                    price := none }

/-! ## `mintToken` (lines 212-488) -/

/-- The four arrays of `mintToken` (lines 232-235) and the number of key-pairs generated
so far. -/
structure MintState where
  remainingAccounts : List AccountMeta
  signers : List Keypair
  cleanupInstructions : List Instruction
  instructions : List Instruction
  generated : Nat
deriving DecidableEq, Repr

/-- An exception thrown inside the outer `try` of `mintToken`, with the arrays as they
are at that moment. -/
structure Abort where
  error : Error
  state : MintState
deriving DecidableEq, Repr

/-- Lines 223-227, `userPayingAccountAddress`. -/
def userPayingAccountAddress (env : Env) (candyMachine : CandyMachine) : PublicKey :=
  match candyMachine.tokenMint with
  | some tokenMint => (env.getAtaForMint tokenMint env.walletPublicKey).1
  | none => env.walletPublicKey

/-- Lines 271-303, the `candyMachine.gatekeeper` branch. -/
def gatekeeperBranch (env : Env) (candyMachine : CandyMachine) (s : MintState) :
    MintState :=
  match candyMachine.gatekeeper with
  | none => s
  | some gatekeeper =>
    let networkToken :=
      (env.getNetworkToken env.walletPublicKey gatekeeper.gatekeeperNetwork).1
    let s1 := { s with remainingAccounts := s.remainingAccounts ++
      [({ pubkey := networkToken, isWritable := true, isSigner := false } : AccountMeta)] }
    if gatekeeper.expireOnUse then
      let s2 := { s1 with remainingAccounts := s1.remainingAccounts ++
        [({ pubkey := env.CIVIC, isWritable := false, isSigner := false } : AccountMeta)] }
      let networkExpire := (env.getNetworkExpire gatekeeper.gatekeeperNetwork).1
      { s2 with remainingAccounts := s2.remainingAccounts ++
        [({ pubkey := networkExpire, isWritable := false, isSigner := false } :
          AccountMeta)] }
    else s1

/-- Lines 304-364, the `candyMachine.whitelistMintSettings` branch. The `mint` of this
block is the allowlist mint, not the fresh key-pair. -/
def whitelistBranch (env : Env) (candyMachine : CandyMachine) (s : MintState) :
    Except Abort MintState :=
  match candyMachine.whitelistMintSettings with
  | none => .ok s
  | some whitelistMintSettings =>
    let mint := whitelistMintSettings.mint
    let whitelistToken := (env.getAtaForMint mint env.walletPublicKey).1
    let s1 := { s with remainingAccounts := s.remainingAccounts ++
      [({ pubkey := whitelistToken, isWritable := true, isSigner := false } : AccountMeta)] }
    match whitelistMintSettings.mode with
    | .neverBurn => .ok s1
    | .burnEveryTime =>
      let whitelistBurnAuthority := env.generate s1.generated
      let s2 := { s1 with generated := s1.generated + 1 }
      let s3 := { s2 with remainingAccounts := s2.remainingAccounts ++
        [({ pubkey := mint, isWritable := true, isSigner := false } : AccountMeta)] }
      let s4 := { s3 with remainingAccounts := s3.remainingAccounts ++
        [({ pubkey := whitelistBurnAuthority.publicKey, isWritable := false,
            isSigner := true } : AccountMeta)] }
      let s5 := { s4 with signers := s4.signers ++ [whitelistBurnAuthority] }
      match env.getAccountInfo candyMachine.program.provider.connection whitelistToken with
      | .error e => .error { error := e, state := s5 }
      | .ok none => .ok s5
      | .ok (some _) =>
        let s6 := { s5 with instructions := s5.instructions ++
          [Instruction.approve env.TOKEN_PROGRAM_ID whitelistToken
            whitelistBurnAuthority.publicKey env.walletPublicKey [] 1] }
        let s7 := { s6 with cleanupInstructions := s6.cleanupInstructions ++
          [Instruction.revoke env.TOKEN_PROGRAM_ID whitelistToken env.walletPublicKey []] }
        .ok s7

/-- Line 387, `candyMachine.price.toNumber()`: a `TypeError` when the record has no
top-level `price`. -/
def priceToNumber (candyMachine : CandyMachine) : Except Error Int :=
  match candyMachine.price with
  | none => .error .typeError
  | some price => BN.toNumber price

/-- Lines 365-405, the `candyMachine.tokenMint` branch. -/
def tokenMintBranch (env : Env) (candyMachine : CandyMachine) (s : MintState) :
    Except Abort MintState :=
  match candyMachine.tokenMint with
  | none => .ok s
  | some _ =>
    let transferAuthority := env.generate s.generated
    let s1 := { s with generated := s.generated + 1 }
    let s2 := { s1 with signers := s1.signers ++ [transferAuthority] }
    let s3 := { s2 with remainingAccounts := s2.remainingAccounts ++
      [({ pubkey := userPayingAccountAddress env candyMachine, isWritable := true,
          isSigner := false } : AccountMeta)] }
    let s4 := { s3 with remainingAccounts := s3.remainingAccounts ++
      [({ pubkey := transferAuthority.publicKey, isWritable := false, isSigner := true } : AccountMeta)] }
    match priceToNumber candyMachine with
    | .error e => .error { error := e, state := s4 }
    | .ok amount =>
      let s5 := { s4 with instructions := s4.instructions ++
        [Instruction.approve env.TOKEN_PROGRAM_ID (userPayingAccountAddress env candyMachine)
          transferAuthority.publicKey env.walletPublicKey [] amount] }
      let s6 := { s5 with cleanupInstructions := s5.cleanupInstructions ++
        [Instruction.revoke env.TOKEN_PROGRAM_ID (userPayingAccountAddress env candyMachine)
          env.walletPublicKey []] }
      .ok s6

/-- Lines 407-468: the metadata, edition and creator addresses are derived, then the
`mintNft` instruction is pushed; `remainingAccounts` is passed when it is not empty,
`undefined` otherwise. The exception of `getCandyMachineCreator` (line 416) ends the
construction before the push. -/
def mintNftPush (env : Env) (candyMachine : CandyMachine) (mint : Keypair)
    (s : MintState) : Except Abort MintState :=
  let candyMachineAddress := candyMachine.id
  let metadataAddress := getMetadata env mint.publicKey
  let masterEdition := getMasterEdition env mint.publicKey
  match getCandyMachineCreator env candyMachineAddress with
  | .error e => .error { error := e, state := s }
  | .ok (candyMachineCreator, creatorBump) =>
    let s1 := { s with instructions := s.instructions ++
      [Instruction.mintNft candyMachine.program.programId creatorBump
        { candyMachine := candyMachineAddress
          candyMachineCreator := candyMachineCreator
          payer := env.walletPublicKey
          wallet := candyMachine.state.treasury
          mint := mint.publicKey
          metadata := metadataAddress
          masterEdition := masterEdition
          mintAuthority := env.walletPublicKey
          updateAuthority := env.walletPublicKey
          tokenMetadataProgram := env.TOKEN_METADATA_PROGRAM_ID
          tokenProgram := env.TOKEN_PROGRAM_ID
          systemProgram := env.systemProgramId
          rent := env.SYSVAR_RENT_PUBKEY
          clock := env.SYSVAR_CLOCK_PUBKEY
          recentBlockhashes := env.SYSVAR_RECENT_BLOCKHASHES_PUBKEY
          instructionSysvarAccount := env.SYSVAR_INSTRUCTIONS_PUBKEY }
        (if s.remainingAccounts.length > 0 then some s.remainingAccounts else none)] }
    .ok s1

/-- Lines 215-468, the construction part of `mintToken`: the arrays as they stand just
before `sendTransactions` is called, or the exception that ended the construction. -/
def buildMint (env : Env) (candyMachine : CandyMachine) : Except Abort MintState :=
  let mint := env.generate 0
  let userTokenAccountAddress := (env.getAtaForMint mint.publicKey env.walletPublicKey).1
  let s0 : MintState :=
    { remainingAccounts := [], signers := [mint], cleanupInstructions := [],
      instructions := [], generated := 1 }
  match env.getMinimumBalanceForRentExemption candyMachine.program.provider.connection
      env.mintLayoutSpan with
  | .error e => .error { error := e, state := s0 }
  | .ok lamports =>
    let s1 := { s0 with instructions :=
      [ Instruction.createAccount env.walletPublicKey mint.publicKey env.mintLayoutSpan
          lamports env.TOKEN_PROGRAM_ID,
        Instruction.initMint env.TOKEN_PROGRAM_ID mint.publicKey 0 env.walletPublicKey
          env.walletPublicKey,
        createAssociatedTokenAccountInstruction env userTokenAccountAddress
          env.walletPublicKey env.walletPublicKey mint.publicKey,
        Instruction.mintTo env.TOKEN_PROGRAM_ID mint.publicKey userTokenAccountAddress
          env.walletPublicKey [] 1 ] }
    let s2 := gatekeeperBranch env candyMachine s1
    match whitelistBranch env candyMachine s2 with
    | .error a => .error a
    | .ok s3 =>
      match tokenMintBranch env candyMachine s3 with
      | .error a => .error a
      | .ok s4 => mintNftPush env candyMachine mint s4

/-- Lines 212-488, `mintToken`. The result is the settlement of the promise it returns:
`.ok (some ids)` is a list of transaction ids, `.ok none` is `undefined`, and `.error e`
would be a rejection with `e`. An exception of the construction is caught at line 485
(the function then ends without a `return`); an exception of `sendTransactions` is
caught at line 481 and followed by `return []`. -/
def mintToken (env : Env) (candyMachine : CandyMachine) :
    Except Error (Option (List String)) :=
  match buildMint env candyMachine with
  | .error _ => .ok none
  | .ok s =>
    match env.sendTransactions candyMachine.program.provider.connection
        candyMachine.program.provider.wallet
        [s.instructions, s.cleanupInstructions] [s.signers, []] with
    | .ok res => .ok (some (res.txs.map (fun t => t.txid)))
    | .error _ => .ok (some [])

/-- The arrays at the end of the construction, completed or not. -/
def endState (r : Except Abort MintState) : MintState :=
  match r with
  | .ok s => s
  | .error a => a.state

/-! ## The plan as the specification words it

The definitions of this section follow the wording of the specification (its sections
4.2 to 4.6), not the code; the theorems below compare them with `buildMint`. -/

namespace Spec

/-- Feature `gatingExpires`: a gatekeeper is present and expires on use. -/
def gatingExpires (cm : CandyMachine) : Bool :=
  match cm.gatekeeper with
  | some g => g.expireOnUse
  | none => false

/-- Feature `allowlistBurns`: whitelist settings are present and their mode is
burn-every-time. -/
def allowlistBurns (cm : CandyMachine) : Bool :=
  match cm.whitelistMintSettings with
  | some w => decide (w.mode = WhitelistMintMode.burnEveryTime)
  | none => false

/-- Feature `secondaryPayment`: a payment token mint is present. -/
def secondaryPayment (cm : CandyMachine) : Bool :=
  cm.tokenMint.isSome

/-- The fresh mint key-pair: the first key-pair generated. -/
def mintKeypair (env : Env) : Keypair := env.generate 0

/-- The burn delegate: the key-pair generated second, in the burn-every-time branch. -/
def burnDelegate (env : Env) : Keypair := env.generate 1

/-- The transfer delegate: the key-pair generated next after the mint key-pair and, when
there is one, the burn delegate. -/
def transferDelegate (env : Env) (cm : CandyMachine) : Keypair :=
  env.generate (if allowlistBurns cm then 2 else 1)

/-- The holder's allowlist token account of the allowlist mint `m`. -/
def allowlistAccount (env : Env) (m : PublicKey) : PublicKey :=
  (env.getAtaForMint m env.walletPublicKey).1

/-- The payer's paying token account of the payment token mint `t`. -/
def payingAccount (env : Env) (t : PublicKey) : PublicKey :=
  (env.getAtaForMint t env.walletPublicKey).1

/-- Extra accounts of the gating rule: the holder gating token (writable), then, if the
gatekeeper expires on use, CIVIC and the expiry-record address (both read-only). -/
def gatingAccounts (env : Env) (cm : CandyMachine) : List AccountMeta :=
  match cm.gatekeeper with
  | none => []
  | some g =>
    [{ pubkey := (env.getNetworkToken env.walletPublicKey g.gatekeeperNetwork).1,
       isSigner := false, isWritable := true }] ++
    (if g.expireOnUse then
      [{ pubkey := env.CIVIC, isSigner := false, isWritable := false },
       { pubkey := (env.getNetworkExpire g.gatekeeperNetwork).1,
         isSigner := false, isWritable := false }]
    else [])

/-- Extra accounts of the allowlist rule: the holder allowlist token account (writable),
then, if the mode is burn-every-time, the allowlist mint (writable) and the burn
delegate's public key (read-only, signer). -/
def allowlistAccounts (env : Env) (cm : CandyMachine) : List AccountMeta :=
  match cm.whitelistMintSettings with
  | none => []
  | some w =>
    [{ pubkey := allowlistAccount env w.mint, isSigner := false, isWritable := true }] ++
    (if w.mode = WhitelistMintMode.burnEveryTime then
      [{ pubkey := w.mint, isSigner := false, isWritable := true },
       { pubkey := (burnDelegate env).publicKey, isSigner := true, isWritable := false }]
    else [])

/-- Extra accounts of the payment token: the payer's paying token account (writable) and
the transfer delegate's public key (read-only, signer). -/
def paymentAccounts (env : Env) (cm : CandyMachine) : List AccountMeta :=
  match cm.tokenMint with
  | none => []
  | some t =>
    [{ pubkey := payingAccount env t, isSigner := false, isWritable := true },
     { pubkey := (transferDelegate env cm).publicKey, isSigner := true,
       isWritable := false }]

/-- The recipient's associated holding account of the fresh mint. -/
def holdingAccount (env : Env) : PublicKey :=
  (env.getAtaForMint (mintKeypair env).publicKey env.walletPublicKey).1

/-- The instruction that creates the recipient's associated holding account of the fresh
mint: a call of the associated-token-account program, without data, on the payer
(signer, writable), the holding account (writable), the owner, the mint, the system
program, the token program and the rent sysvar. -/
def createHoldingAccount (env : Env) : Instruction :=
  Instruction.transactionInstruction
    [ { pubkey := env.walletPublicKey, isSigner := true, isWritable := true },
      { pubkey := holdingAccount env, isSigner := false, isWritable := true },
      { pubkey := env.walletPublicKey, isSigner := false, isWritable := false },
      { pubkey := (mintKeypair env).publicKey, isSigner := false, isWritable := false },
      { pubkey := env.systemProgramId, isSigner := false, isWritable := false },
      { pubkey := env.TOKEN_PROGRAM_ID, isSigner := false, isWritable := false },
      { pubkey := env.SYSVAR_RENT_PUBKEY, isSigner := false, isWritable := false } ]
    env.SPL_ASSOCIATED_TOKEN_ACCOUNT_PROGRAM_ID []

/-- The four fixed instructions: create account, init zero-decimal mint, create
associated holding account, mint-to of exactly 1 unit. -/
def fixedInstructions (env : Env) (lamports : Nat) : List Instruction :=
  [ Instruction.createAccount env.walletPublicKey (mintKeypair env).publicKey
      env.mintLayoutSpan lamports env.TOKEN_PROGRAM_ID,
    Instruction.initMint env.TOKEN_PROGRAM_ID (mintKeypair env).publicKey 0
      env.walletPublicKey env.walletPublicKey,
    createHoldingAccount env,
    Instruction.mintTo env.TOKEN_PROGRAM_ID (mintKeypair env).publicKey (holdingAccount env)
      env.walletPublicKey [] 1 ]

/-- The drop's creator address and its bump, derived from the seed text `candy_machine`
and the decoded drop address `dropKey` under the candy-machine program. -/
def creatorAddress (env : Env) (dropKey : PublicKey) : PublicKey × Nat :=
  env.findProgramAddress [Seed.text "candy_machine", Seed.key dropKey]
    env.candyMachineProgram

/-- The fixed accounts of the terminal `mintNft` call: drop address, creator address,
payer, treasury, fresh token identity, its metadata and edition addresses, the payer as
mint authority and update authority, and the metadata, token and system programs and the
rent, clock, recent-blockhashes and instructions sysvars. -/
def mintNftAccounts (env : Env) (cm : CandyMachine) (dropKey : PublicKey) :
    MintNftAccounts :=
  { candyMachine := cm.id
    candyMachineCreator := (creatorAddress env dropKey).1
    payer := env.walletPublicKey
    wallet := cm.state.treasury
    mint := (mintKeypair env).publicKey
    metadata :=
      (env.findProgramAddress
        [Seed.text "metadata", Seed.key env.TOKEN_METADATA_PROGRAM_ID,
          Seed.key (mintKeypair env).publicKey]
        env.TOKEN_METADATA_PROGRAM_ID).1
    masterEdition :=
      (env.findProgramAddress
        [Seed.text "metadata", Seed.key env.TOKEN_METADATA_PROGRAM_ID,
          Seed.key (mintKeypair env).publicKey, Seed.text "edition"]
        env.TOKEN_METADATA_PROGRAM_ID).1
    mintAuthority := env.walletPublicKey
    updateAuthority := env.walletPublicKey
    tokenMetadataProgram := env.TOKEN_METADATA_PROGRAM_ID
    tokenProgram := env.TOKEN_PROGRAM_ID
    systemProgram := env.systemProgramId
    rent := env.SYSVAR_RENT_PUBKEY
    clock := env.SYSVAR_CLOCK_PUBKEY
    recentBlockhashes := env.SYSVAR_RECENT_BLOCKHASHES_PUBKEY
    instructionSysvarAccount := env.SYSVAR_INSTRUCTIONS_PUBKEY }

/-- The terminal `mintNft` call of the drop's program with the creator bump, the fixed
accounts and the value `extra` passed as its extra accounts (`none` is `undefined`). -/
def executeMint (env : Env) (cm : CandyMachine) (dropKey : PublicKey)
    (extra : Option (List AccountMeta)) : Instruction :=
  Instruction.mintNft cm.program.programId (creatorAddress env dropKey).2
    (mintNftAccounts env cm dropKey) extra

/-- The approve of 1 unit on the allowlist holding account, present exactly when the
allowlist is burn-every-time and the probed account exists. -/
def allowlistApprove (env : Env) (cm : CandyMachine) (info : Option AccountInfo) :
    List Instruction :=
  match cm.whitelistMintSettings with
  | none => []
  | some w =>
    if w.mode = WhitelistMintMode.burnEveryTime ∧ info.isSome then
      [Instruction.approve env.TOKEN_PROGRAM_ID (allowlistAccount env w.mint)
        (burnDelegate env).publicKey env.walletPublicKey [] 1]
    else []

/-- The approve of `amount` units on the payer's paying token account, present exactly
when a payment token mint is present. -/
def paymentApprove (env : Env) (cm : CandyMachine) (amount : Int) : List Instruction :=
  match cm.tokenMint with
  | none => []
  | some t =>
    [Instruction.approve env.TOKEN_PROGRAM_ID (payingAccount env t)
      (transferDelegate env cm).publicKey env.walletPublicKey [] amount]

/-- The revoke that matches an approve: same token program and holding account, owned by
the payer; no revoke for any other instruction. -/
def revokeOf (env : Env) (i : Instruction) : Option Instruction :=
  match i with
  | Instruction.approve programId account _ _ _ _ =>
    some (Instruction.revoke programId account env.walletPublicKey [])
  | _ => none

/-- An instruction is a delegate approval. -/
def isApprove (i : Instruction) : Bool :=
  match i with
  | Instruction.approve _ _ _ _ _ _ => true
  | _ => false

/-- An instruction is a `mintNft` call. -/
def isMintNft (i : Instruction) : Bool :=
  match i with
  | Instruction.mintNft _ _ _ _ => true
  | _ => false

/-- The signer list: the mint key-pair, then the burn delegate exactly when the
burn-every-time branch runs, then the transfer delegate exactly when the payment-token
branch runs. -/
def signerSet (env : Env) (cm : CandyMachine) : List Keypair :=
  [mintKeypair env] ++ (if allowlistBurns cm then [burnDelegate env] else []) ++
    (if secondaryPayment cm then [transferDelegate env cm] else [])

end Spec

/-! ## The environment answers

The construction makes up to three calls that can throw. The hypotheses of the theorems
name their answers. -/

/-- The rent call of lines 241-243. -/
def rentCall (env : Env) (cm : CandyMachine) : Except Error Nat :=
  env.getMinimumBalanceForRentExemption cm.program.provider.connection env.mintLayoutSpan

/-- The existence probe of lines 334-337 for whitelist settings `w`. -/
def probeCall (env : Env) (cm : CandyMachine) (w : WhitelistMintSettings) :
    Except Error (Option AccountInfo) :=
  env.getAccountInfo cm.program.provider.connection
    (env.getAtaForMint w.mint env.walletPublicKey).1

/-- The probe, when the construction makes it, answers `info` (the account data, or
`none` for an account that does not exist). -/
def ProbeAnswers (env : Env) (cm : CandyMachine) (info : Option AccountInfo) : Prop :=
  ∀ w, cm.whitelistMintSettings = some w → w.mode = WhitelistMintMode.burnEveryTime →
    probeCall env cm w = .ok info

/-- The price, when the construction reads it, is the number `amount`: the record has
the top-level `price` `amount`, and it fits in 53 bits. -/
def PriceReads (cm : CandyMachine) (amount : Int) : Prop :=
  cm.tokenMint ≠ none → cm.price = some amount ∧ amount.natAbs < 2 ^ 53

/-- The drop address decodes: `new PublicKey(cm.id)` is `dropKey`. -/
def IdDecodes (env : Env) (cm : CandyMachine) (dropKey : PublicKey) : Prop :=
  env.newPublicKey cm.id = .ok dropKey

/-- The cleanup list is the list of the revokes of the approvals of the mint list. -/
def CleanupMatches (env : Env) (s : MintState) : Prop :=
  s.cleanupInstructions = s.instructions.filterMap (Spec.revokeOf env)

/-! ## Concrete inputs -/

/-- The base58 alphabet. -/
def base58Alphabet : List Char :=
  "123456789ABCDEFGHJKLMNPQRSTUVWXYZabcdefghijkmnopqrstuvwxyz".toList

/-- The number written by base58 digits, most significant first; `none` for a character
outside the alphabet. -/
def base58Value (digits : List Char) : Option Nat :=
  digits.foldl
    (fun acc c =>
      match acc with
      | none => none
      | some n =>
        if c ∈ base58Alphabet then some (n * 58 + base58Alphabet.indexOf c) else none)
    (some 0)

/-- The decoded bytes of a base58 string are one zero byte per leading `1` followed by
the bytes of its number `n`, none for `0`; `byteCount leadingOnes n k` tests that there
are exactly `k` of them. -/
def byteCount (leadingOnes n k : Nat) : Bool :=
  decide (leadingOnes ≤ k) &&
    (if k - leadingOnes = 0 then decide (n = 0)
     else decide (256 ^ (k - leadingOnes - 1) ≤ n) && decide (n < 256 ^ (k - leadingOnes)))

/-- The constructor `new PublicKey(string)` of web3.js: the string is decoded from
base58 and must give exactly 32 bytes, else "Invalid public key input" is thrown. -/
def decodeAddress (s : String) : Except Error PublicKey :=
  match base58Value s.toList with
  | none => .error .invalidPublicKey
  | some n =>
    if byteCount (s.toList.takeWhile (fun c => c == '1')).length n 32 then .ok { key := n }
    else .error .invalidPublicKey

/-- The address of the drop of the examples, in base58. -/
def demoId : String := "FcJfGZVko4CVy6tYbaNsJ8TMoYJHrb3UAc94rwB17Jfu"

/-- The address that `demoId` decodes to. -/
def demoIdKey : PublicKey :=
  { key := 98178237634188871213505832989636848783707007044407242451958710356448824395876 }

/-- An environment whose calls all answer; the probed account exists. -/
def demoEnv : Env where
  walletPublicKey := { key := 1 }
  generate := fun k => { publicKey := { key := 100 + k }, secretKey := 900 + k }
  newPublicKey := decodeAddress
  findProgramAddress := fun seeds p => ({ key := 1000 + 10 * seeds.length + p.key }, 255)
  getAtaForMint := fun m w => ({ key := 2000 + 10 * m.key + w.key }, 254)
  getNetworkToken := fun w n => ({ key := 3000 + 10 * n.key + w.key }, 253)
  getNetworkExpire := fun n => ({ key := 4000 + n.key }, 252)
  CIVIC := { key := 5 }
  candyMachineProgram := { key := 6 }
  TOKEN_METADATA_PROGRAM_ID := { key := 7 }
  SPL_ASSOCIATED_TOKEN_ACCOUNT_PROGRAM_ID := { key := 8 }
  TOKEN_PROGRAM_ID := { key := 9 }
  systemProgramId := { key := 10 }
  SYSVAR_RENT_PUBKEY := { key := 11 }
  SYSVAR_CLOCK_PUBKEY := { key := 12 }
  SYSVAR_RECENT_BLOCKHASHES_PUBKEY := { key := 13 }
  SYSVAR_INSTRUCTIONS_PUBKEY := { key := 14 }
  mintLayoutSpan := 82
  getMinimumBalanceForRentExemption := fun _ _ => .ok 1461600
  getAccountInfo := fun _ _ => .ok (some { lamports := 2039280, owner := { key := 9 } })
  sendTransactions := fun _ _ _ _ => .ok { txs := [{ txid := "mint" }, { txid := "cleanup" }] }

/-- The environment `demoEnv` with a probed account that does not exist. -/
def absentEnv : Env :=
  { demoEnv with getAccountInfo := fun _ _ => .ok none }

/-- The environment `demoEnv` with a probe that throws. -/
def probeFailsEnv : Env :=
  { demoEnv with getAccountInfo := fun _ _ => .error (Error.rpc 503) }

/-- The environment `demoEnv` with a submitter that throws. -/
def submitFailsEnv : Env :=
  { demoEnv with sendTransactions := fun _ _ _ _ => .error (Error.rpc 500) }

/-- A program instance. -/
def demoProgram : Program :=
  { programId := { key := 6 }
    provider := { connection := { rpcHost := "devnet" }, wallet := { publicKey := { key := 1 } } } }

/-- A decoded account: supply 100, redeemed 40, price 1, with a gatekeeper that expires
on use, a burn-every-time allowlist and a payment token mint. -/
def demoAccount : CandyMachineAccount :=
  { wallet := { key := 20 }
    tokenMint := some { key := 21 }
    itemsRedeemed := 40
    data :=
      { itemsAvailable := 100
        goLiveDate := some 1640000000
        price := 1
        gatekeeper := some { gatekeeperNetwork := { key := 22 }, expireOnUse := true }
        endSettings := none
        whitelistMintSettings :=
          some { mode := WhitelistMintMode.burnEveryTime, mint := { key := 23 },
                 presale := false, discountPrice := none }
        hiddenSettings := none }
    endSettings := none }

/-- Surroundings in which `getCandyMachineState` fetches `demoAccount`. -/
def demoStateEnv : StateEnv where
  candyMachineId := demoId
  fetchIdl := .ok (some ())
  program := demoProgram
  fetch := fun _ => .ok demoAccount
  nowMs := fun _ => 1700000000000
  toUTCString := fun _ => "Mon, 20 Dec 2021 11:33:20 GMT"

/-- The `state` object that `getCandyMachineState` computes from `demoAccount`. -/
def demoState : CandyMachineState :=
  { itemsAvailable := 100
    itemsRedeemed := 40
    itemsRemaining := 60
    goLiveData := 1640000000
    goLiveDateTimeString := "Mon, 20 Dec 2021 11:33:20 GMT"
    isSoldOut := false
    isActive := true
    isPresale := some false
    goLiveDate := some 1640000000
    treasury := { key := 20 }
    tokenMint := some { key := 21 }
    gatekeeper := some { gatekeeperNetwork := { key := 22 }, expireOnUse := true }
    endSettings := none
    whitelistMintSettings :=
      some { mode := WhitelistMintMode.burnEveryTime, mint := { key := 23 },
             presale := false, discountPrice := none }
    hiddenSettings := none
    price := 1 }

/-- The record that `getCandyMachineState` stores for `demoAccount`: no top-level
feature field. -/
def storedRecord : CandyMachine :=
  { id := demoId, program := demoProgram, state := demoState, gatekeeper := none,
    whitelistMintSettings := none, tokenMint := none, price := none }

/-- A record whose top-level fields carry every feature: gatekeeper expiring on use,
burn-every-time allowlist, payment token mint, price 7. -/
def fullRecord : CandyMachine :=
  { storedRecord with
    gatekeeper := some { gatekeeperNetwork := { key := 22 }, expireOnUse := true }
    whitelistMintSettings :=
      some { mode := WhitelistMintMode.burnEveryTime, mint := { key := 23 },
             presale := false, discountPrice := none }
    tokenMint := some { key := 21 }
    price := some 7 }

/-- A record with an expiring gatekeeper and a payment token mint, no allowlist. -/
def gatedPayingRecord : CandyMachine :=
  { storedRecord with
    gatekeeper := some { gatekeeperNetwork := { key := 22 }, expireOnUse := true }
    tokenMint := some { key := 21 }
    price := some 7 }

/-- The record `storedRecord` under an id that is not an address. -/
def misnamedRecord : CandyMachine :=
  { storedRecord with id := "drop" }

/-- A record with a burn-every-time allowlist only. -/
def burnRecord : CandyMachine :=
  { storedRecord with
    whitelistMintSettings :=
      some { mode := WhitelistMintMode.burnEveryTime, mint := { key := 23 },
             presale := false, discountPrice := none } }

/-! ## Helper lemmas -/

/-- A price that is present and fits in 53 bits is read as itself. -/
theorem priceToNumber_of_reads (cm : CandyMachine) (amount : Int)
    (hp : cm.price = some amount) (hb : amount.natAbs < 2 ^ 53) :
    priceToNumber cm = .ok amount := by
  simp only [priceToNumber, hp, BN.toNumber, hb, if_true]

/-- The complete result of a construction whose calls all answer. -/
theorem buildMint_ok (env : Env) (cm : CandyMachine) (lamports : Nat)
    (info : Option AccountInfo) (amount : Int) (dropKey : PublicKey)
    (hrent : rentCall env cm = .ok lamports)
    (hprobe : ProbeAnswers env cm info)
    (hprice : PriceReads cm amount)
    (hid : IdDecodes env cm dropKey) :
    buildMint env cm = .ok
      { remainingAccounts :=
          Spec.gatingAccounts env cm ++ Spec.allowlistAccounts env cm ++
            Spec.paymentAccounts env cm
        signers := Spec.signerSet env cm
        cleanupInstructions :=
          (Spec.allowlistApprove env cm info ++ Spec.paymentApprove env cm amount).filterMap
            (Spec.revokeOf env)
        instructions :=
          Spec.fixedInstructions env lamports ++ Spec.allowlistApprove env cm info ++
            Spec.paymentApprove env cm amount ++
            [Spec.executeMint env cm dropKey
              (if (Spec.gatingAccounts env cm ++ Spec.allowlistAccounts env cm ++
                  Spec.paymentAccounts env cm).length > 0
               then some (Spec.gatingAccounts env cm ++ Spec.allowlistAccounts env cm ++
                  Spec.paymentAccounts env cm)
               else none)]
        generated := (Spec.signerSet env cm).length } := by
  obtain ⟨id, program, state, gk, wl, tm, price⟩ := cm
  unfold rentCall at hrent
  unfold IdDecodes at hid
  simp only at hrent hid
  have hpr : ∀ t, tm = some t → priceToNumber
      { id := id, program := program, state := state, gatekeeper := gk,
        whitelistMintSettings := wl, tokenMint := tm, price := price } = .ok amount := by
    intro t ht
    obtain ⟨h1, h2⟩ := hprice (by simp [ht])
    exact priceToNumber_of_reads _ _ h1 h2
  have hpb : ∀ w, wl = some w → w.mode = WhitelistMintMode.burnEveryTime →
      env.getAccountInfo program.provider.connection
        (env.getAtaForMint w.mint env.walletPublicKey).1 = .ok info := by
    intro w hw hm
    exact hprobe w (by simp [hw]) hm
  clear hprobe hprice
  unfold buildMint
  simp only [hrent]
  rcases gk with _ | ⟨network, _ | _⟩ <;> rcases wl with _ | ⟨_ | _, wmint, presale, discount⟩ <;>
    rcases tm with _ | t <;> rcases info with _ | info <;>
    (try have h1 := hpb _ rfl rfl) <;> (try have h2 := hpr _ rfl) <;> clear hpb hpr <;>
    simp [*, gatekeeperBranch, whitelistBranch, tokenMintBranch, mintNftPush,
      getCandyMachineCreator, getMetadata, getMasterEdition,
      createAssociatedTokenAccountInstruction,
      userPayingAccountAddress, Spec.gatingAccounts, Spec.allowlistAccounts,
      Spec.paymentAccounts, Spec.signerSet, Spec.allowlistApprove, Spec.paymentApprove,
      Spec.fixedInstructions, Spec.createHoldingAccount, Spec.holdingAccount,
      Spec.executeMint, Spec.mintNftAccounts, Spec.creatorAddress,
      Spec.revokeOf, Spec.mintKeypair, Spec.burnDelegate,
      Spec.transferDelegate, Spec.allowlistBurns, Spec.secondaryPayment,
      Spec.allowlistAccount, Spec.payingAccount]

/-- The record stored by `getCandyMachineState` has none of the four top-level fields
that `mintToken` tests or reads. -/
theorem stored_top_level (senv : StateEnv) (cm : CandyMachine)
    (h : getCandyMachineState senv = some cm) :
    cm.gatekeeper = none ∧ cm.whitelistMintSettings = none ∧ cm.tokenMint = none ∧
      cm.price = none := by
  simp only [getCandyMachineState] at h
  repeat' split at h
  all_goals first
    | (cases h; exact ⟨rfl, rfl, rfl, rfl⟩)
    | cases h

/-- The construction for a record without top-level feature fields. -/
theorem buildMint_plain (env : Env) (cm : CandyMachine) (lamports : Nat)
    (dropKey : PublicKey)
    (hg : cm.gatekeeper = none) (hw : cm.whitelistMintSettings = none)
    (ht : cm.tokenMint = none) (hrent : rentCall env cm = .ok lamports)
    (hid : IdDecodes env cm dropKey) :
    buildMint env cm = .ok
      { remainingAccounts := []
        signers := [env.generate 0]
        cleanupInstructions := []
        instructions :=
          Spec.fixedInstructions env lamports ++ [Spec.executeMint env cm dropKey none]
        generated := 1 } := by
  unfold rentCall at hrent
  unfold IdDecodes at hid
  unfold buildMint
  simp [hrent, hid, gatekeeperBranch, whitelistBranch, tokenMintBranch, mintNftPush, hg, hw,
    ht, getCandyMachineCreator, getMetadata, getMasterEdition,
    createAssociatedTokenAccountInstruction, Spec.fixedInstructions,
    Spec.createHoldingAccount, Spec.holdingAccount, Spec.executeMint, Spec.mintNftAccounts,
    Spec.creatorAddress, Spec.mintKeypair]

/-- The settlement of `mintToken` after a completed construction is decided by the
submitter's answer to the two batches. -/
theorem mintToken_of_build (env : Env) (cm : CandyMachine) (s : MintState)
    (h : buildMint env cm = .ok s) :
    mintToken env cm =
      match env.sendTransactions cm.program.provider.connection cm.program.provider.wallet
          [s.instructions, s.cleanupInstructions] [s.signers, []] with
      | .ok res => .ok (some (res.txs.map (fun t => t.txid)))
      | .error _ => .ok (some []) := by
  unfold mintToken
  rw [h]

/-- The signer list of the specification is the list of the key-pairs generated. -/
theorem signerSet_eq_generated (env : Env) (cm : CandyMachine) :
    Spec.signerSet env cm =
      (List.range (Spec.signerSet env cm).length).map env.generate := by
  unfold Spec.signerSet Spec.mintKeypair Spec.burnDelegate Spec.transferDelegate
  cases Spec.allowlistBurns cm <;> cases Spec.secondaryPayment cm <;>
    simp [List.range_succ]

/-- Every extra account of the specification that is marked as a signer is the public key
of a member of the specification's signer list. -/
theorem signer_entries_covered (env : Env) (cm : CandyMachine) :
    ∀ a ∈ Spec.gatingAccounts env cm ++ Spec.allowlistAccounts env cm ++
        Spec.paymentAccounts env cm,
      a.isSigner = true → ∃ k ∈ Spec.signerSet env cm, k.publicKey = a.pubkey := by
  obtain ⟨id, program, state, gk, wl, tm, price⟩ := cm
  rcases gk with _ | ⟨network, _ | _⟩ <;> rcases wl with _ | ⟨_ | _, wmint, presale, discount⟩ <;>
    rcases tm with _ | t <;>
    simp [Spec.gatingAccounts, Spec.allowlistAccounts, Spec.paymentAccounts, Spec.signerSet,
      Spec.allowlistBurns, Spec.secondaryPayment, Spec.mintKeypair, Spec.burnDelegate,
      Spec.transferDelegate]

/-- There are as many revokes of approvals as approvals. -/
theorem length_filterMap_revokeOf (env : Env) (l : List Instruction) :
    (l.filterMap (Spec.revokeOf env)).length = l.countP Spec.isApprove := by
  induction l with
  | nil => rfl
  | cons i l ih =>
    cases i <;> simp [List.filterMap_cons, List.countP_cons, Spec.revokeOf, Spec.isApprove, ih]

/-- The gatekeeper branch leaves the two instruction lists as they are. -/
theorem gatekeeperBranch_cleanup (env : Env) (cm : CandyMachine) (s : MintState)
    (h : CleanupMatches env s) : CleanupMatches env (gatekeeperBranch env cm s) := by
  unfold gatekeeperBranch
  split
  · exact h
  · split <;> exact h

/-- The allowlist branch keeps the cleanup list matched, also when the probe throws. -/
theorem whitelistBranch_cleanup (env : Env) (cm : CandyMachine) (s : MintState)
    (h : CleanupMatches env s) :
    CleanupMatches env (endState (whitelistBranch env cm s)) := by
  unfold CleanupMatches at h
  unfold whitelistBranch
  split
  · exact h
  · split
    · exact h
    · simp only
      split <;>
        simp [endState, CleanupMatches, List.filterMap_append, Spec.revokeOf, h]

/-- The payment-token branch keeps the cleanup list matched, also when the price cannot
be read. -/
theorem tokenMintBranch_cleanup (env : Env) (cm : CandyMachine) (s : MintState)
    (h : CleanupMatches env s) :
    CleanupMatches env (endState (tokenMintBranch env cm s)) := by
  unfold CleanupMatches at h
  unfold tokenMintBranch
  split
  · exact h
  · simp only
    split <;>
      simp [endState, CleanupMatches, List.filterMap_append, Spec.revokeOf, h]

/-- The final push keeps the cleanup list matched, also when the drop address does not
decode. -/
theorem mintNftPush_cleanup (env : Env) (cm : CandyMachine) (mint : Keypair) (s : MintState)
    (h : CleanupMatches env s) :
    CleanupMatches env (endState (mintNftPush env cm mint s)) := by
  unfold CleanupMatches at h
  unfold mintNftPush
  simp only
  split
  · exact h
  · simp [endState, CleanupMatches, List.filterMap_append, Spec.revokeOf, h]

/-- The cleanup list is matched at the end of every construction, completed or not. -/
theorem buildMint_cleanup (env : Env) (cm : CandyMachine) :
    CleanupMatches env (endState (buildMint env cm)) := by
  unfold buildMint
  simp only
  split
  · simp [endState, CleanupMatches]
  · next lamports _ =>
    have h1 : CleanupMatches env
        (gatekeeperBranch env cm
          { remainingAccounts := [], signers := [env.generate 0], cleanupInstructions := [],
            instructions :=
              [ Instruction.createAccount env.walletPublicKey (env.generate 0).publicKey
                  env.mintLayoutSpan lamports env.TOKEN_PROGRAM_ID,
                Instruction.initMint env.TOKEN_PROGRAM_ID (env.generate 0).publicKey 0
                  env.walletPublicKey env.walletPublicKey,
                createAssociatedTokenAccountInstruction env
                  (env.getAtaForMint (env.generate 0).publicKey env.walletPublicKey).1
                  env.walletPublicKey env.walletPublicKey (env.generate 0).publicKey,
                Instruction.mintTo env.TOKEN_PROGRAM_ID (env.generate 0).publicKey
                  (env.getAtaForMint (env.generate 0).publicKey env.walletPublicKey).1
                  env.walletPublicKey [] 1 ],
            generated := 1 }) := by
      apply gatekeeperBranch_cleanup
      simp [CleanupMatches, Spec.revokeOf, createAssociatedTokenAccountInstruction]
    have h2 := whitelistBranch_cleanup env cm _ h1
    split
    · next a ha =>
      rw [ha] at h2
      exact h2
    · next s3 hs3 =>
      rw [hs3] at h2
      have h3 := tokenMintBranch_cleanup env cm s3 h2
      split
      · next a ha =>
        rw [ha] at h3
        exact h3
      · next s4 hs4 =>
        rw [hs4] at h3
        exact mintNftPush_cleanup env cm _ s4 h3

/-- A drop address that does not decode ends the construction at line 416: for the id
`drop` the mint list holds the four fixed instructions and no `mintNft`, and
`mintToken` returns `undefined`. -/
theorem misnamed_id_aborts :
    demoEnv.newPublicKey misnamedRecord.id = .error Error.invalidPublicKey ∧
    (buildMint demoEnv misnamedRecord).toOption.isSome = false ∧
    (endState (buildMint demoEnv misnamedRecord)).instructions =
      Spec.fixedInstructions demoEnv 1461600 ∧
    mintToken demoEnv misnamedRecord = .ok none :=
  ⟨rfl, rfl, rfl, rfl⟩

/-! ## The claims -/

/-- C1: for every record with no gatekeeper, no whitelist settings and no payment token
mint (the rent call answering and the drop address decoding), `mintToken` builds exactly
5 mint instructions in the order create account, init mint, create associated holding
account, mint-to of 1 unit, `mintNft`; the extra-accounts list is empty (`mintNft` gets
`undefined`), the signer list holds exactly the fresh mint key-pair, and the cleanup
list has 0 instructions. -/
theorem plain_drop_plan (env : Env) (cm : CandyMachine) (lamports : Nat)
    (dropKey : PublicKey)
    (hg : cm.gatekeeper = none) (hw : cm.whitelistMintSettings = none)
    (ht : cm.tokenMint = none) (hrent : rentCall env cm = .ok lamports)
    (hid : IdDecodes env cm dropKey) :
    ∃ s, buildMint env cm = .ok s ∧
      s.instructions =
        [ Instruction.createAccount env.walletPublicKey (env.generate 0).publicKey
            env.mintLayoutSpan lamports env.TOKEN_PROGRAM_ID,
          Instruction.initMint env.TOKEN_PROGRAM_ID (env.generate 0).publicKey 0
            env.walletPublicKey env.walletPublicKey,
          Instruction.transactionInstruction
            [ { pubkey := env.walletPublicKey, isSigner := true, isWritable := true },
              { pubkey := (env.getAtaForMint (env.generate 0).publicKey
                  env.walletPublicKey).1, isSigner := false, isWritable := true },
              { pubkey := env.walletPublicKey, isSigner := false, isWritable := false },
              { pubkey := (env.generate 0).publicKey, isSigner := false,
                isWritable := false },
              { pubkey := env.systemProgramId, isSigner := false, isWritable := false },
              { pubkey := env.TOKEN_PROGRAM_ID, isSigner := false, isWritable := false },
              { pubkey := env.SYSVAR_RENT_PUBKEY, isSigner := false, isWritable := false } ]
            env.SPL_ASSOCIATED_TOKEN_ACCOUNT_PROGRAM_ID [],
          Instruction.mintTo env.TOKEN_PROGRAM_ID (env.generate 0).publicKey
            (env.getAtaForMint (env.generate 0).publicKey env.walletPublicKey).1
            env.walletPublicKey [] 1,
          Instruction.mintNft cm.program.programId (Spec.creatorAddress env dropKey).2
            (Spec.mintNftAccounts env cm dropKey) none ] ∧
      s.instructions.length = 5 ∧
      s.remainingAccounts = [] ∧
      s.signers = [env.generate 0] ∧
      s.cleanupInstructions = [] :=
  ⟨_, buildMint_plain env cm lamports dropKey hg hw ht hrent hid, rfl, rfl, rfl, rfl, rfl⟩

/-- Witness of C1 at the stored record, which has no top-level feature field. -/
theorem plain_drop_plan_witness :
    rentCall demoEnv storedRecord = .ok 1461600 ∧
    IdDecodes demoEnv storedRecord demoIdKey ∧
    ∃ s, buildMint demoEnv storedRecord = .ok s ∧
      s.instructions =
        [ Instruction.createAccount demoEnv.walletPublicKey (demoEnv.generate 0).publicKey
            demoEnv.mintLayoutSpan 1461600 demoEnv.TOKEN_PROGRAM_ID,
          Instruction.initMint demoEnv.TOKEN_PROGRAM_ID (demoEnv.generate 0).publicKey 0
            demoEnv.walletPublicKey demoEnv.walletPublicKey,
          Instruction.transactionInstruction
            [ { pubkey := demoEnv.walletPublicKey, isSigner := true, isWritable := true },
              { pubkey := (demoEnv.getAtaForMint (demoEnv.generate 0).publicKey
                  demoEnv.walletPublicKey).1, isSigner := false, isWritable := true },
              { pubkey := demoEnv.walletPublicKey, isSigner := false, isWritable := false },
              { pubkey := (demoEnv.generate 0).publicKey, isSigner := false,
                isWritable := false },
              { pubkey := demoEnv.systemProgramId, isSigner := false, isWritable := false },
              { pubkey := demoEnv.TOKEN_PROGRAM_ID, isSigner := false, isWritable := false },
              { pubkey := demoEnv.SYSVAR_RENT_PUBKEY, isSigner := false,
                isWritable := false } ]
            demoEnv.SPL_ASSOCIATED_TOKEN_ACCOUNT_PROGRAM_ID [],
          Instruction.mintTo demoEnv.TOKEN_PROGRAM_ID (demoEnv.generate 0).publicKey
            (demoEnv.getAtaForMint (demoEnv.generate 0).publicKey demoEnv.walletPublicKey).1
            demoEnv.walletPublicKey [] 1,
          Instruction.mintNft storedRecord.program.programId
            (Spec.creatorAddress demoEnv demoIdKey).2
            (Spec.mintNftAccounts demoEnv storedRecord demoIdKey) none ] ∧
      s.instructions.length = 5 ∧
      s.remainingAccounts = [] ∧
      s.signers = [demoEnv.generate 0] ∧
      s.cleanupInstructions = [] :=
  ⟨rfl, rfl, plain_drop_plan demoEnv storedRecord 1461600 demoIdKey rfl rfl rfl rfl rfl⟩

/-- C2: for every record and every answer `info` of the existence probe (the rent call
answering, the price being readable when it is read and the drop address decoding), the
extra-accounts list is the concatenation, in this order, of the gating entries, the
allowlist entries and the payment entries of the specification, and nothing else. -/
theorem remainingAccounts_concatenation (env : Env) (cm : CandyMachine) (lamports : Nat)
    (info : Option AccountInfo) (amount : Int) (dropKey : PublicKey)
    (hrent : rentCall env cm = .ok lamports)
    (hprobe : ProbeAnswers env cm info)
    (hprice : PriceReads cm amount)
    (hid : IdDecodes env cm dropKey) :
    ∃ s, buildMint env cm = .ok s ∧
      s.remainingAccounts =
        Spec.gatingAccounts env cm ++ Spec.allowlistAccounts env cm ++
          Spec.paymentAccounts env cm :=
  ⟨_, buildMint_ok env cm lamports info amount dropKey hrent hprobe hprice hid, rfl⟩

/-- Witness of C2 at a record with every feature. -/
theorem remainingAccounts_concatenation_witness :
    rentCall demoEnv fullRecord = .ok 1461600 ∧
    ProbeAnswers demoEnv fullRecord (some { lamports := 2039280, owner := { key := 9 } }) ∧
    PriceReads fullRecord 7 ∧
    IdDecodes demoEnv fullRecord demoIdKey ∧
    ∃ s, buildMint demoEnv fullRecord = .ok s ∧
      s.remainingAccounts =
        Spec.gatingAccounts demoEnv fullRecord ++ Spec.allowlistAccounts demoEnv fullRecord ++
          Spec.paymentAccounts demoEnv fullRecord :=
  ⟨rfl, fun _ _ _ => rfl, fun _ => ⟨rfl, by decide⟩, rfl,
    remainingAccounts_concatenation demoEnv fullRecord 1461600
      (some { lamports := 2039280, owner := { key := 9 } }) 7 demoIdKey rfl (fun _ _ _ => rfl)
      (fun _ => ⟨rfl, by decide⟩) rfl⟩

/-- C3, as stated, fails: a record with a gatekeeper that expires on use and a payment
token mint gets 5 extra accounts, not 3. -/
theorem gated_paying_has_five_accounts :
    Spec.gatingExpires gatedPayingRecord = true ∧
    (buildMint demoEnv gatedPayingRecord).toOption.map
      (fun s => s.remainingAccounts.length) = some 5 ∧
    (buildMint demoEnv gatedPayingRecord).toOption.map
      (fun s => s.remainingAccounts.length) ≠ some 3 := by
  decide

/-- C3, amended: for every record whose gatekeeper `g` is present and expires on use, the
extra-accounts list begins with exactly the three gating entries in the fixed order
(holder gating token, gating-authority program address, expiry-record address); the
allowlist entries and the payment entries follow them, so the list has exactly these 3
entries when neither whitelist settings nor a payment token mint are present. -/
theorem gating_accounts_lead (env : Env) (cm : CandyMachine) (g : Gatekeeper)
    (lamports : Nat) (info : Option AccountInfo) (amount : Int) (dropKey : PublicKey)
    (hg : cm.gatekeeper = some g) (he : g.expireOnUse = true)
    (hrent : rentCall env cm = .ok lamports)
    (hprobe : ProbeAnswers env cm info)
    (hprice : PriceReads cm amount)
    (hid : IdDecodes env cm dropKey) :
    ∃ s gating, buildMint env cm = .ok s ∧
      gating =
        [ ({ pubkey := (env.getNetworkToken env.walletPublicKey g.gatekeeperNetwork).1,
             isSigner := false, isWritable := true } : AccountMeta),
          { pubkey := env.CIVIC, isSigner := false, isWritable := false },
          { pubkey := (env.getNetworkExpire g.gatekeeperNetwork).1,
            isSigner := false, isWritable := false } ] ∧
      s.remainingAccounts.take 3 = gating ∧
      s.remainingAccounts =
        gating ++ Spec.allowlistAccounts env cm ++ Spec.paymentAccounts env cm ∧
      (cm.whitelistMintSettings = none → cm.tokenMint = none →
        s.remainingAccounts = gating) := by
  refine ⟨_, _, buildMint_ok env cm lamports info amount dropKey hrent hprobe hprice hid,
    rfl, ?_, ?_, ?_⟩
  · simp [Spec.gatingAccounts, hg, he]
  · simp [Spec.gatingAccounts, hg, he]
  · intro hw ht
    simp [Spec.gatingAccounts, Spec.allowlistAccounts, Spec.paymentAccounts, hg, he, hw, ht]

/-- Witness of the amended C3 at a record with every feature. -/
theorem gating_accounts_lead_witness :
    fullRecord.gatekeeper = some { gatekeeperNetwork := { key := 22 }, expireOnUse := true } ∧
    rentCall demoEnv fullRecord = .ok 1461600 ∧
    ProbeAnswers demoEnv fullRecord (some { lamports := 2039280, owner := { key := 9 } }) ∧
    PriceReads fullRecord 7 ∧
    IdDecodes demoEnv fullRecord demoIdKey ∧
    ∃ s gating, buildMint demoEnv fullRecord = .ok s ∧
      gating =
        [ ({ pubkey := { key := 3221 }, isSigner := false, isWritable := true } : AccountMeta),
          { pubkey := { key := 5 }, isSigner := false, isWritable := false },
          { pubkey := { key := 4022 }, isSigner := false, isWritable := false } ] ∧
      s.remainingAccounts.take 3 = gating ∧
      s.remainingAccounts =
        gating ++ Spec.allowlistAccounts demoEnv fullRecord ++
          Spec.paymentAccounts demoEnv fullRecord ∧
      (fullRecord.whitelistMintSettings = none → fullRecord.tokenMint = none →
        s.remainingAccounts = gating) :=
  ⟨rfl, rfl, fun _ _ _ => rfl, fun _ => ⟨rfl, by decide⟩, rfl,
    gating_accounts_lead demoEnv fullRecord
      { gatekeeperNetwork := { key := 22 }, expireOnUse := true } 1461600
      (some { lamports := 2039280, owner := { key := 9 } }) 7 demoIdKey rfl rfl rfl (fun _ _ _ => rfl)
      (fun _ => ⟨rfl, by decide⟩) rfl⟩

/-- C4: for every record (the calls of the construction answering and the drop address
decoding), the signer list handed to the submitter is, in order of generation, the fresh
mint key-pair, then the burn delegate exactly when the burn-every-time branch runs, then
the transfer delegate exactly when the payment-token branch runs; every extra-accounts
entry marked `isSigner` is the public key of a member of the signer list, and the signer
list is the list of all key-pairs generated during the build (invariant I2); the
submitter receives this list with the mint batch and the empty list with the cleanup
batch. -/
theorem signers_in_generation_order (env : Env) (cm : CandyMachine) (lamports : Nat)
    (info : Option AccountInfo) (amount : Int) (dropKey : PublicKey)
    (hrent : rentCall env cm = .ok lamports)
    (hprobe : ProbeAnswers env cm info)
    (hprice : PriceReads cm amount)
    (hid : IdDecodes env cm dropKey) :
    ∃ s, buildMint env cm = .ok s ∧
      s.signers =
        [env.generate 0] ++
        (if Spec.allowlistBurns cm then [env.generate 1] else []) ++
        (if Spec.secondaryPayment cm then
          [env.generate (if Spec.allowlistBurns cm then 2 else 1)] else []) ∧
      (∀ a ∈ s.remainingAccounts, a.isSigner = true →
        ∃ k ∈ s.signers, k.publicKey = a.pubkey) ∧
      s.signers = (List.range s.generated).map env.generate ∧
      (∀ i, i < s.generated → env.generate i ∈ s.signers) ∧
      mintToken env cm =
        (match env.sendTransactions cm.program.provider.connection
            cm.program.provider.wallet
            [s.instructions, s.cleanupInstructions] [s.signers, []] with
        | .ok res => .ok (some (res.txs.map (fun t => t.txid)))
        | .error _ => .ok (some [])) := by
  have hb := buildMint_ok env cm lamports info amount dropKey hrent hprobe hprice hid
  refine ⟨_, hb, rfl, signer_entries_covered env cm, signerSet_eq_generated env cm, ?_,
    mintToken_of_build env cm _ hb⟩
  intro i hi
  simp only at hi
  rw [signerSet_eq_generated env cm]
  exact List.mem_map.mpr ⟨i, List.mem_range.mpr hi, rfl⟩

/-- Witness of C4 at a record with every feature. -/
theorem signers_in_generation_order_witness :
    rentCall demoEnv fullRecord = .ok 1461600 ∧
    ProbeAnswers demoEnv fullRecord (some { lamports := 2039280, owner := { key := 9 } }) ∧
    PriceReads fullRecord 7 ∧
    IdDecodes demoEnv fullRecord demoIdKey ∧
    ∃ s, buildMint demoEnv fullRecord = .ok s ∧
      s.signers =
        [demoEnv.generate 0] ++
        (if Spec.allowlistBurns fullRecord then [demoEnv.generate 1] else []) ++
        (if Spec.secondaryPayment fullRecord then
          [demoEnv.generate (if Spec.allowlistBurns fullRecord then 2 else 1)] else []) ∧
      (∀ a ∈ s.remainingAccounts, a.isSigner = true →
        ∃ k ∈ s.signers, k.publicKey = a.pubkey) ∧
      s.signers = (List.range s.generated).map demoEnv.generate ∧
      (∀ i, i < s.generated → demoEnv.generate i ∈ s.signers) ∧
      mintToken demoEnv fullRecord =
        (match demoEnv.sendTransactions fullRecord.program.provider.connection
            fullRecord.program.provider.wallet
            [s.instructions, s.cleanupInstructions] [s.signers, []] with
        | .ok res => .ok (some (res.txs.map (fun t => t.txid)))
        | .error _ => .ok (some [])) :=
  ⟨rfl, fun _ _ _ => rfl, fun _ => ⟨rfl, by decide⟩, rfl,
    signers_in_generation_order demoEnv fullRecord 1461600
      (some { lamports := 2039280, owner := { key := 9 } }) 7 demoIdKey rfl (fun _ _ _ => rfl)
      (fun _ => ⟨rfl, by decide⟩) rfl⟩

/-- C5: for every record with a burn-every-time allowlist whose probed holding account
does not exist (the other calls answering and the drop address decoding), the allowlist
branch appends no approve and no revoke (the mint list is the four fixed instructions,
the payment approve if there is a payment token, and `mintNft`; the cleanup list is the
payment revoke if any), yet the burn delegate is generated and appears in the signer
list and, as a read-only signer entry, in the extra-accounts list. -/
theorem burn_delegate_without_approve (env : Env) (cm : CandyMachine)
    (w : WhitelistMintSettings) (lamports : Nat) (amount : Int) (dropKey : PublicKey)
    (hw : cm.whitelistMintSettings = some w)
    (hm : w.mode = WhitelistMintMode.burnEveryTime)
    (hrent : rentCall env cm = .ok lamports)
    (hprobe : probeCall env cm w = .ok none)
    (hprice : PriceReads cm amount)
    (hid : IdDecodes env cm dropKey) :
    ∃ s, buildMint env cm = .ok s ∧
      s.instructions =
        Spec.fixedInstructions env lamports ++ Spec.paymentApprove env cm amount ++
          [Instruction.mintNft cm.program.programId (Spec.creatorAddress env dropKey).2
            (Spec.mintNftAccounts env cm dropKey) (some s.remainingAccounts)] ∧
      s.cleanupInstructions =
        (Spec.paymentApprove env cm amount).filterMap (Spec.revokeOf env) ∧
      (cm.tokenMint = none →
        s.instructions.all (fun i => !Spec.isApprove i) = true ∧
        s.cleanupInstructions = []) ∧
      2 ≤ s.generated ∧
      env.generate 1 ∈ s.signers ∧
      ({ pubkey := (env.generate 1).publicKey, isSigner := true, isWritable := false } :
        AccountMeta) ∈ s.remainingAccounts := by
  have hp : ProbeAnswers env cm none := by
    intro w2 hw2 _
    rw [hw] at hw2
    cases hw2
    exact hprobe
  refine ⟨_, buildMint_ok env cm lamports none amount dropKey hrent hp hprice hid,
    ?_, ?_, ?_, ?_, ?_, ?_⟩
  · simp [Spec.allowlistApprove, Spec.allowlistAccounts, Spec.executeMint, hw, hm]
  · simp [Spec.allowlistApprove, hw, hm]
  · intro ht
    simp [Spec.allowlistApprove, Spec.paymentApprove, Spec.fixedInstructions,
      Spec.createHoldingAccount, Spec.executeMint, Spec.isApprove, hw, hm, ht]
  · simp [Spec.signerSet, Spec.allowlistBurns, hw, hm]
  · simp [Spec.signerSet, Spec.allowlistBurns, Spec.burnDelegate, hw, hm]
  · simp [Spec.allowlistAccounts, Spec.burnDelegate, hw, hm]

/-- Witness of C5 at a record with every feature, the probed account being absent. -/
theorem burn_delegate_without_approve_witness :
    fullRecord.whitelistMintSettings =
      some { mode := WhitelistMintMode.burnEveryTime, mint := { key := 23 },
             presale := false, discountPrice := none } ∧
    rentCall absentEnv fullRecord = .ok 1461600 ∧
    probeCall absentEnv fullRecord
      { mode := WhitelistMintMode.burnEveryTime, mint := { key := 23 },
        presale := false, discountPrice := none } = .ok none ∧
    PriceReads fullRecord 7 ∧
    IdDecodes absentEnv fullRecord demoIdKey ∧
    ∃ s, buildMint absentEnv fullRecord = .ok s ∧
      s.instructions =
        Spec.fixedInstructions absentEnv 1461600 ++ Spec.paymentApprove absentEnv fullRecord 7 ++
          [Instruction.mintNft fullRecord.program.programId
            (Spec.creatorAddress absentEnv demoIdKey).2
            (Spec.mintNftAccounts absentEnv fullRecord demoIdKey)
            (some s.remainingAccounts)] ∧
      s.cleanupInstructions =
        (Spec.paymentApprove absentEnv fullRecord 7).filterMap (Spec.revokeOf absentEnv) ∧
      (fullRecord.tokenMint = none →
        s.instructions.all (fun i => !Spec.isApprove i) = true ∧
        s.cleanupInstructions = []) ∧
      2 ≤ s.generated ∧
      absentEnv.generate 1 ∈ s.signers ∧
      ({ pubkey := (absentEnv.generate 1).publicKey, isSigner := true, isWritable := false } :
        AccountMeta) ∈ s.remainingAccounts :=
  ⟨rfl, rfl, rfl, fun _ => ⟨rfl, by decide⟩, rfl,
    burn_delegate_without_approve absentEnv fullRecord
      { mode := WhitelistMintMode.burnEveryTime, mint := { key := 23 },
        presale := false, discountPrice := none } 1461600 7 demoIdKey rfl rfl rfl rfl (fun _ => ⟨rfl, by decide⟩) rfl⟩

/-- C6: for every record and every answer of the environment, also a failed probe, the
cleanup list is obtained from the mint list by replacing every approve, in order, by the
revoke addressed to the same holding account and owned by the payer (the wallet public
key), and dropping every other instruction: one revoke per approve, in the same relative
order, and nothing else. -/
theorem cleanup_revokes_each_approve (env : Env) (cm : CandyMachine) :
    (endState (buildMint env cm)).cleanupInstructions =
      (endState (buildMint env cm)).instructions.filterMap (Spec.revokeOf env) ∧
    (endState (buildMint env cm)).cleanupInstructions.length =
      (endState (buildMint env cm)).instructions.countP Spec.isApprove := by
  have h := buildMint_cleanup env cm
  unfold CleanupMatches at h
  refine ⟨h, ?_⟩
  rw [h]
  exact length_filterMap_revokeOf env _

/-- C7: for every record and every answer `info` of the probe (the rent call answering,
the top-level price being `amount` when it is read, the drop address decoding), the mint
instruction list is the four fixed instructions (create account, init zero-decimal mint,
create associated holding account, mint-to of exactly 1 unit), then the approve of 1
unit on the allowlist holding account exactly when the allowlist is burn-every-time and
that account exists, then the approve of `amount` units on the payer's paying token
account exactly when a payment token mint is present, then the single `mintNft` call as
the last instruction; its length is 5 plus the number of approvals. -/
theorem instructions_in_fixed_order (env : Env) (cm : CandyMachine) (lamports : Nat)
    (info : Option AccountInfo) (amount : Int) (dropKey : PublicKey)
    (hrent : rentCall env cm = .ok lamports)
    (hprobe : ProbeAnswers env cm info)
    (hprice : PriceReads cm amount)
    (hid : IdDecodes env cm dropKey) :
    ∃ s, buildMint env cm = .ok s ∧
      s.instructions =
        Spec.fixedInstructions env lamports ++ Spec.allowlistApprove env cm info ++
          Spec.paymentApprove env cm amount ++
          [Instruction.mintNft cm.program.programId (Spec.creatorAddress env dropKey).2
            (Spec.mintNftAccounts env cm dropKey)
            (if s.remainingAccounts.length > 0 then some s.remainingAccounts else none)] ∧
      (Spec.fixedInstructions env lamports).length = 4 ∧
      s.instructions.countP Spec.isApprove =
        (Spec.allowlistApprove env cm info).length +
          (Spec.paymentApprove env cm amount).length ∧
      s.instructions.countP Spec.isMintNft = 1 ∧
      s.instructions.length = 5 + s.instructions.countP Spec.isApprove := by
  refine ⟨_, buildMint_ok env cm lamports info amount dropKey hrent hprobe hprice hid,
    rfl, rfl, ?_, ?_, ?_⟩ <;>
  · obtain ⟨id, program, state, gk, wl, tm, price⟩ := cm
    rcases wl with _ | ⟨_ | _, wmint, presale, discount⟩ <;> rcases tm with _ | t <;>
      rcases info with _ | info <;>
      simp [Spec.allowlistApprove, Spec.paymentApprove, Spec.fixedInstructions,
        Spec.createHoldingAccount, Spec.executeMint, Spec.isApprove, Spec.isMintNft,
        List.countP_cons]

/-- Witness of C7 at a record with every feature, the probed account existing. -/
theorem instructions_in_fixed_order_witness :
    rentCall demoEnv fullRecord = .ok 1461600 ∧
    ProbeAnswers demoEnv fullRecord (some { lamports := 2039280, owner := { key := 9 } }) ∧
    PriceReads fullRecord 7 ∧
    IdDecodes demoEnv fullRecord demoIdKey ∧
    ∃ s, buildMint demoEnv fullRecord = .ok s ∧
      s.instructions =
        Spec.fixedInstructions demoEnv 1461600 ++
          Spec.allowlistApprove demoEnv fullRecord
            (some { lamports := 2039280, owner := { key := 9 } }) ++
          Spec.paymentApprove demoEnv fullRecord 7 ++
          [Instruction.mintNft fullRecord.program.programId
            (Spec.creatorAddress demoEnv demoIdKey).2
            (Spec.mintNftAccounts demoEnv fullRecord demoIdKey)
            (if s.remainingAccounts.length > 0 then some s.remainingAccounts else none)] ∧
      (Spec.fixedInstructions demoEnv 1461600).length = 4 ∧
      s.instructions.countP Spec.isApprove =
        (Spec.allowlistApprove demoEnv fullRecord
            (some { lamports := 2039280, owner := { key := 9 } })).length +
          (Spec.paymentApprove demoEnv fullRecord 7).length ∧
      s.instructions.countP Spec.isMintNft = 1 ∧
      s.instructions.length = 5 + s.instructions.countP Spec.isApprove :=
  ⟨rfl, fun _ _ _ => rfl, fun _ => ⟨rfl, by decide⟩, rfl,
    instructions_in_fixed_order demoEnv fullRecord 1461600
      (some { lamports := 2039280, owner := { key := 9 } }) 7 demoIdKey rfl (fun _ _ _ => rfl)
      (fun _ => ⟨rfl, by decide⟩) rfl⟩

/-- C8, as stated, fails: the submitter throws on the two batches built for the stored
record, and `mintToken` settles normally with the empty list instead of failing. -/
theorem submit_failure_is_swallowed :
    submitFailsEnv.sendTransactions storedRecord.program.provider.connection
        storedRecord.program.provider.wallet
        [(endState (buildMint submitFailsEnv storedRecord)).instructions,
          (endState (buildMint submitFailsEnv storedRecord)).cleanupInstructions]
        [(endState (buildMint submitFailsEnv storedRecord)).signers, []] =
      .error (Error.rpc 500) ∧
    (buildMint submitFailsEnv storedRecord).toOption.isSome = true ∧
    mintToken submitFailsEnv storedRecord = .ok (some []) ∧
    mintToken submitFailsEnv storedRecord ≠ .error (Error.rpc 500) := by
  have h : mintToken submitFailsEnv storedRecord = .ok (some []) := rfl
  refine ⟨rfl, rfl, h, ?_⟩
  rw [h]
  exact fun h2 => by cases h2

/-- C8, amended: whenever the submitter fails on the two batches of a completed
construction, `mintToken` catches the error and returns the empty list of transaction
ids as a normal return value; the caller does not observe the failure. -/
theorem submit_failure_returns_empty (env : Env) (cm : CandyMachine) (s : MintState)
    (e : Error) (hbuild : buildMint env cm = .ok s)
    (hsend : env.sendTransactions cm.program.provider.connection
      cm.program.provider.wallet [s.instructions, s.cleanupInstructions] [s.signers, []] =
        .error e) :
    mintToken env cm = .ok (some []) ∧ mintToken env cm ≠ .error e := by
  have h : mintToken env cm = .ok (some []) := by
    rw [mintToken_of_build env cm s hbuild, hsend]
  exact ⟨h, by rw [h]; exact fun h2 => by cases h2⟩

/-- Witness of the amended C8 at the stored record. -/
theorem submit_failure_returns_empty_witness :
    buildMint submitFailsEnv storedRecord =
      .ok (endState (buildMint submitFailsEnv storedRecord)) ∧
    submitFailsEnv.sendTransactions storedRecord.program.provider.connection
        storedRecord.program.provider.wallet
        [(endState (buildMint submitFailsEnv storedRecord)).instructions,
          (endState (buildMint submitFailsEnv storedRecord)).cleanupInstructions]
        [(endState (buildMint submitFailsEnv storedRecord)).signers, []] =
      .error (Error.rpc 500) ∧
    mintToken submitFailsEnv storedRecord = .ok (some []) ∧
    mintToken submitFailsEnv storedRecord ≠ .error (Error.rpc 500) :=
  ⟨rfl, rfl,
    submit_failure_returns_empty submitFailsEnv storedRecord
      (endState (buildMint submitFailsEnv storedRecord)) (Error.rpc 500) rfl rfl⟩

/-- C9, as stated, fails: the probe throws for a burn-every-time record, `mintToken`
settles normally with `undefined` instead of failing, and at that moment two key-pairs
have been generated and are in the signer list. -/
theorem probe_failure_after_two_keypairs :
    probeCall probeFailsEnv burnRecord
      { mode := WhitelistMintMode.burnEveryTime, mint := { key := 23 },
        presale := false, discountPrice := none } = .error (Error.rpc 503) ∧
    mintToken probeFailsEnv burnRecord = .ok none ∧
    mintToken probeFailsEnv burnRecord ≠ .error (Error.rpc 503) ∧
    (buildMint probeFailsEnv burnRecord).toOption.isSome = false ∧
    (endState (buildMint probeFailsEnv burnRecord)).generated = 2 ∧
    (endState (buildMint probeFailsEnv burnRecord)).signers =
      [probeFailsEnv.generate 0, probeFailsEnv.generate 1] := by
  have h : mintToken probeFailsEnv burnRecord = .ok none := rfl
  refine ⟨rfl, h, ?_, rfl, rfl, rfl⟩
  rw [h]
  exact fun h2 => by cases h2

/-- C9, amended: whenever the existence check of the allowlist holding account fails
(the rent call having answered), the construction aborts with that error, `mintToken`
catches it and returns `undefined` as a normal return value, and at the moment of the
failure exactly two key-pairs have been generated, the fresh mint identity and the burn
delegate, both already in the signer list. -/
theorem probe_failure_aborts (env : Env) (cm : CandyMachine) (w : WhitelistMintSettings)
    (lamports : Nat) (e : Error)
    (hw : cm.whitelistMintSettings = some w)
    (hm : w.mode = WhitelistMintMode.burnEveryTime)
    (hrent : rentCall env cm = .ok lamports)
    (hprobe : probeCall env cm w = .error e) :
    ∃ st, buildMint env cm = .error { error := e, state := st } ∧
      mintToken env cm = .ok none ∧
      st.generated = 2 ∧
      st.signers = [env.generate 0, env.generate 1] ∧
      st.cleanupInstructions = [] := by
  obtain ⟨id, program, state, gk, wl, tm, price⟩ := cm
  simp only at hw
  subst hw
  obtain ⟨mode, wmint, presale, discount⟩ := w
  simp only at hm
  subst hm
  unfold rentCall at hrent
  unfold probeCall at hprobe
  simp only at hrent hprobe
  unfold mintToken buildMint
  rcases gk with _ | ⟨network, _ | _⟩ <;>
    simp [hrent, hprobe, gatekeeperBranch, whitelistBranch]

/-- Witness of the amended C9 at a burn-every-time record. -/
theorem probe_failure_aborts_witness :
    burnRecord.whitelistMintSettings =
      some { mode := WhitelistMintMode.burnEveryTime, mint := { key := 23 },
             presale := false, discountPrice := none } ∧
    rentCall probeFailsEnv burnRecord = .ok 1461600 ∧
    probeCall probeFailsEnv burnRecord
      { mode := WhitelistMintMode.burnEveryTime, mint := { key := 23 },
        presale := false, discountPrice := none } = .error (Error.rpc 503) ∧
    ∃ st, buildMint probeFailsEnv burnRecord = .error { error := Error.rpc 503, state := st } ∧
      mintToken probeFailsEnv burnRecord = .ok none ∧
      st.generated = 2 ∧
      st.signers = [probeFailsEnv.generate 0, probeFailsEnv.generate 1] ∧
      st.cleanupInstructions = [] :=
  ⟨rfl, rfl, rfl,
    probe_failure_aborts probeFailsEnv burnRecord
      { mode := WhitelistMintMode.burnEveryTime, mint := { key := 23 },
        presale := false, discountPrice := none } 1461600 (Error.rpc 503) rfl rfl rfl rfl⟩

/-- C10: for every record stored by `getCandyMachineState` (the wallet being connected,
the rent call answering and the drop address decoding), whatever gatekeeper, whitelist
settings and payment token mint are nested under its `state`, `mintToken` takes none of
its feature branches: it builds exactly 5 instructions, the fifth being the `mintNft`
call with `undefined` as its extra accounts, signs with exactly the fresh mint key-pair,
and builds 0 cleanup instructions. -/
theorem stored_record_takes_no_branch (env : Env) (senv : StateEnv) (cm : CandyMachine)
    (lamports : Nat) (dropKey : PublicKey)
    (hstored : getCandyMachineState senv = some cm)
    (hrent : rentCall env cm = .ok lamports)
    (hid : IdDecodes env cm dropKey) :
    (cm.gatekeeper = none ∧ cm.whitelistMintSettings = none ∧ cm.tokenMint = none) ∧
    ∃ s, buildMint env cm = .ok s ∧
      s.instructions =
        Spec.fixedInstructions env lamports ++
          [Instruction.mintNft cm.program.programId (Spec.creatorAddress env dropKey).2
            (Spec.mintNftAccounts env cm dropKey) none] ∧
      s.instructions.length = 5 ∧
      s.remainingAccounts = [] ∧
      s.signers = [env.generate 0] ∧
      s.generated = 1 ∧
      s.cleanupInstructions = [] := by
  obtain ⟨hg, hw, ht, _⟩ := stored_top_level senv cm hstored
  exact ⟨⟨hg, hw, ht⟩, _, buildMint_plain env cm lamports dropKey hg hw ht hrent hid, rfl,
    rfl, rfl, rfl, rfl, rfl⟩

/-- Witness of C10: the record stored for a drop whose nested state has a gatekeeper, a
burn-every-time allowlist and a payment token mint. -/
theorem stored_record_takes_no_branch_witness :
    getCandyMachineState demoStateEnv = some storedRecord ∧
    rentCall demoEnv storedRecord = .ok 1461600 ∧
    IdDecodes demoEnv storedRecord demoIdKey ∧
    storedRecord.state.gatekeeper.isSome = true ∧
    storedRecord.state.whitelistMintSettings.isSome = true ∧
    storedRecord.state.tokenMint.isSome = true ∧
    (storedRecord.gatekeeper = none ∧ storedRecord.whitelistMintSettings = none ∧
      storedRecord.tokenMint = none) ∧
    ∃ s, buildMint demoEnv storedRecord = .ok s ∧
      s.instructions =
        Spec.fixedInstructions demoEnv 1461600 ++
          [Instruction.mintNft storedRecord.program.programId
            (Spec.creatorAddress demoEnv demoIdKey).2
            (Spec.mintNftAccounts demoEnv storedRecord demoIdKey) none] ∧
      s.instructions.length = 5 ∧
      s.remainingAccounts = [] ∧
      s.signers = [demoEnv.generate 0] ∧
      s.generated = 1 ∧
      s.cleanupInstructions = [] :=
  ⟨rfl, rfl, rfl, rfl, rfl, rfl,
    stored_record_takes_no_branch demoEnv demoStateEnv storedRecord 1461600 demoIdKey
      rfl rfl rfl⟩

end CandyMachineApp
